import Mathlib

/-!
Verification of the SQLite-Viewer repository's table-viewing pipeline.

The development embeds, as executable Lean definitions, the parts of
`src/utils/database_handler.py` and `src/sqlite_viewer.py` that the
specification's testable properties talk about:

* `getFilteredSortedDf` — `DataframeConnection.get_filtered_sorted_df`
  (substring filter across all stringified cells, then a sort by one column);
* `pageRows`, `totalPagesOf`, `workerOutcome` — the page-slicing and
  reporting logic of `SQLiteViewer.load_table_data._worker`;
* `onColumnClick` — the sort-cycle state transition of
  `SQLiteViewer.on_column_click`;
* `onPageChange` — the wrap-around page arithmetic of
  `SQLiteViewer.on_page_change`;
* `getCsvDataframe` — the comma-then-semicolon fallback of
  `DataframeConnection._get_csv_dataframe`;
* `Loader.run` — an interleaving model of the thread-per-request loader of
  `SQLiteViewer.load_table_data`, which spawns a worker thread per request
  and has each worker unconditionally deliver its result to the display
  via `wx.CallAfter(self.display_table, ...)`.
-/

namespace SQLiteViewer

/-- A scalar cell value of a dataframe.  Pandas columns may hold numbers,
text or missing values; this model keeps the cases the viewer's logic
distinguishes (the filter stringifies every cell, the sort compares cells
of the sort column). -/
inductive Value where
  | vInt : Int → Value
  | vStr : String → Value
  | vNull : Value
deriving DecidableEq, Repr

/-- Text representation of a cell, as produced by `df.astype(str)` in
`get_filtered_sorted_df` (Python `str()` of the cell). -/
def Value.pyStr : Value → String
  | .vInt n => toString n
  | .vStr s => s
  | .vNull => "None"

/-- An in-memory table: ordered column names and rows of cell values,
modelling the `pd.DataFrame` returned by `DataframeConnection.get_df`. -/
structure DataFrame where
  columns : List String
  rows : List (List Value)
deriving DecidableEq, Repr

/-- Plain (non-regex) containment of `p` in a character list: `p` occurs as
a contiguous run. -/
def subListCheck (p : List Char) : List Char → Bool
  | [] => p.isEmpty
  | c :: t => p.isPrefixOf (c :: t) || subListCheck p t

/-- Case-insensitive substring test: does `cell` contain `q`?  Models
`Series.str.contains(q, case=False, regex=False)`, which lowercases both
sides and checks plain containment (ASCII case folding in this model). -/
def containsCI (cell q : String) : Bool :=
  subListCheck (q.data.map Char.toLower) (cell.data.map Char.toLower)

/-- Row predicate of the search filter in `get_filtered_sorted_df`:
`df.astype(str).apply(lambda row: row.str.contains(search_query, case=False,
regex=False)).any(axis=1)` — some stringified cell of the row contains the
query case-insensitively. -/
def rowMatches (q : String) (row : List Value) : Bool :=
  row.any (fun c => containsCI c.pyStr q)

/-- Comparison on non-null cell values used as the sort key order (numbers
by value, strings lexicographically). -/
def Value.cmpLe : Value → Value → Bool
  | .vNull, _ => true
  | _, .vNull => false
  | .vInt a, .vInt b => decide (a ≤ b)
  | .vInt _, .vStr _ => true
  | .vStr _, .vInt _ => false
  | .vStr a, .vStr b => decide (a ≤ b)

/-- Key order of `sort_values(by=c, ascending=asc)`: nulls are placed last
regardless of direction (pandas `na_position="last"`), other values by
`cmpLe` in the requested direction. -/
def keyLe (asc : Bool) (a b : Value) : Bool :=
  match a, b with
  | .vNull, .vNull => true
  | .vNull, _ => false
  | _, .vNull => true
  | a, b => if asc then Value.cmpLe a b else Value.cmpLe b a

/-- The sort key of a row: the cell in column `c` (`vNull` when absent). -/
def sortKey (cols : List String) (c : String) (row : List Value) : Value :=
  row.getD (cols.indexOf c) Value.vNull

/-- The row reordering of `df.sort_values(by=c, ascending=asc)`.  The
source leaves `kind` at its default `"quicksort"`; this model uses a merge
sort, which agrees with pandas on the multiset of rows and on the key order
but fixes the tie order (pandas does not guarantee one for `"quicksort"`). -/
def sortRows (cols : List String) (c : String) (asc : Bool)
    (rows : List (List Value)) : List (List Value) :=
  rows.mergeSort (fun r1 r2 => keyLe asc (sortKey cols c r1) (sortKey cols c r2))

/-- The `if search_query:` step of `get_filtered_sorted_df`: keep only
matching rows.  Python truthiness makes both `None` and `""` skip the
filter. -/
def filterStep (df : DataFrame) (searchQuery : Option String) : DataFrame :=
  match searchQuery with
  | none => df
  | some q => if q = "" then df else ⟨df.columns, df.rows.filter (rowMatches q)⟩

/-- The `if sort_column:` step of `get_filtered_sorted_df`: sort the rows by
the named column.  Python truthiness makes both `None` and `""` skip the
sort. -/
def sortStep (df : DataFrame) (sortColumn : Option String) (sortOrder : Bool) :
    DataFrame :=
  match sortColumn with
  | none => df
  | some c => if c = "" then df else ⟨df.columns, sortRows df.columns c sortOrder df.rows⟩

/-- Embedding of `DataframeConnection.get_filtered_sorted_df` (identical in
`src/sqlite_viewer.py`): the search filter runs first, the sort second. -/
def getFilteredSortedDf (df : DataFrame) (sortColumn : Option String)
    (sortOrder : Bool) (searchQuery : Option String) : DataFrame :=
  sortStep (filterStep df searchQuery) sortColumn sortOrder

/-- The page slice of `load_table_data._worker`:
`offset = (page_number - 1) * page_size; rows = df.iloc[offset:offset+page_size]`
(Python slicing clips silently past the end). -/
def pageRows (rows : List (List Value)) (pageNumber pageSize : Nat) :
    List (List Value) :=
  (rows.drop ((pageNumber - 1) * pageSize)).take pageSize

/-- The page count of `load_table_data._worker`:
`math.ceil(total_rows / page_size)`, i.e. ceiling division. -/
def totalPagesOf (totalRows pageSize : Nat) : Nat :=
  (totalRows + pageSize - 1) / pageSize

/-- Outcome of one `_worker` run, keeping the user-visible report of each
branch: the caught `pd.errors.DatabaseError` branch, the empty-page branch,
and the successful display branch. -/
inductive LoadOutcome where
  | dbError (message status : String)
  | noData (message status : String)
  | display (rows : List (List Value)) (columns : List String) (totalPages : Nat)
deriving DecidableEq, Repr

/-- Embedding of the body of `SQLiteViewer.load_table_data._worker`.  The
dataframe computation is passed in as an `Except` value: `.error e` stands
for `get_filtered_sorted_df` raising `pd.errors.DatabaseError(e)`.  On
success the worker slices the requested page; an empty slice takes the
"No data found" branch, otherwise the rows, columns and
`math.ceil(total_rows / page_size)` reach `display_table`. -/
def workerOutcome (loadResult : Except String DataFrame) (tableName : String)
    (pageNumber pageSize : Nat) : LoadOutcome :=
  match loadResult with
  | .error e =>
      .dbError ("Error opening table \"" ++ tableName ++ "\" due to \n" ++ e)
        "Error opening table"
  | .ok df =>
      let rows := pageRows df.rows pageNumber pageSize
      if rows.isEmpty then
        .noData ("No data found in table \"" ++ tableName ++ "\"")
          "No data found in table"
      else
        .display rows df.columns (totalPagesOf df.rows.length pageSize)

/-- The sorting part of the view state: `self.sort_column` (`None` or a
column name) and `self.sort_order` (`True` = ascending). -/
structure SortState where
  sortColumn : Option String
  sortOrder : Bool
deriving DecidableEq, Repr

/-- Embedding of `SQLiteViewer.on_column_click`'s state update: if the
clicked column is already the sort column, a descending sort is cleared and
an ascending one becomes descending; otherwise the clicked column becomes
the sort column, ascending.  (`self.sort_column == column` is `False` in
Python when `sort_column` is `None`.) -/
def onColumnClick (s : SortState) (column : String) : SortState :=
  if s.sortColumn = some column then
    if s.sortOrder = false then ⟨none, false⟩
    else ⟨some column, false⟩
  else ⟨some column, true⟩

/-- Embedding of the page arithmetic of `SQLiteViewer.on_page_change`:
`((current_page - 2 if backward else current_page) % total_pages) + 1`.
Lean's `Int.emod` agrees with Python's `%` for a positive modulus. -/
def onPageChange (currentPage totalPages : Int) (backward : Bool) : Int :=
  ((if backward then currentPage - 2 else currentPage) % totalPages) + 1

/-- Result of one pandas CSV read attempt, classified by the exception type
the `except` clauses of `_get_csv_dataframe` test for. -/
inductive CsvParseResult where
  | ok (df : DataFrame)
  | emptyDataError
  | valueError (msg : String)
  | otherError (msg : String)
deriving DecidableEq, Repr

/-- Abstract CSV file, characterised by the outcomes of the two reads the
code can attempt: the strict comma-delimited read
(`pd.read_csv(file, on_bad_lines="error", ...)`) and the lenient
semicolon-delimited read (`pd.read_csv(file, sep=";", on_bad_lines="warn",
...)`, which skips and reports malformed rows instead of raising; it may
still fail for other reasons, hence `Except`). -/
structure CsvFile where
  commaStrict : CsvParseResult
  semicolonLenient : Except String DataFrame
deriving Repr

/-- Embedding of `DataframeConnection._get_csv_dataframe`: try the strict
comma read; on `pd.errors.EmptyDataError` return an empty dataframe; on any
other `TypeError`/`ValueError` (pandas `ParserError` — malformed field
counts or wrong delimiter — subclasses `ValueError`) retry with the lenient
semicolon read; any other exception propagates. -/
def getCsvDataframe (f : CsvFile) : Except String DataFrame :=
  match f.commaStrict with
  | .ok df => .ok df
  | .emptyDataError => .ok ⟨[], []⟩
  | .valueError _ => f.semicolonLenient
  | .otherError m => .error m

/-- An event of the load coordinator: the UI thread issues a load request
for a table (spawning a worker thread), or the worker of the `i`-th issued
request (0-based issue order) finishes and its queued
`wx.CallAfter(self.display_table, ...)` runs on the UI thread. -/
inductive LoaderEvent where
  | issue (tableName : String)
  | complete (i : Nat)
deriving DecidableEq, Repr

/-- One display update applied by a finishing worker: the id of the request
it belonged to, how many requests had been issued at that moment, and the
table whose rows it put on the display. -/
structure AppliedEntry where
  reqId : Nat
  issuedCount : Nat
  payload : Option String
deriving DecidableEq, Repr

/-- State of the loader model: the tables requested so far in issue order,
ids of requests whose workers already delivered, the table whose rows the
display currently shows, and the log of display updates in the order they
were applied. -/
structure LoaderState where
  issued : List String
  done : List Nat
  display : Option String
  appliedLog : List AppliedEntry
deriving DecidableEq, Repr

/-- Initial loader state: nothing requested, nothing displayed. -/
def LoaderState.init : LoaderState := ⟨[], [], none, []⟩

/-- One step of the loader.  `load_table_data` spawns a fresh
`threading.Thread` per request with no abandon flag or generation check,
and `_worker` ends in an unconditional `wx.CallAfter(self.display_table,
...)`; so a `complete i` event always applies request `i`'s result to the
display, whatever was issued in the meantime. -/
def LoaderState.step (s : LoaderState) : LoaderEvent → LoaderState
  | .issue t => { s with issued := s.issued ++ [t] }
  | .complete i =>
      { s with
        done := i :: s.done
        display := s.issued.get? i
        appliedLog := s.appliedLog ++ [⟨i, s.issued.length, s.issued.get? i⟩] }

/-- Run the loader model over a sequence of events. -/
def Loader.run (events : List LoaderEvent) : LoaderState :=
  events.foldl LoaderState.step LoaderState.init

/-- Well-formedness of an event sequence, tracked incrementally: a request
completes at most once and only after it was issued (`issued` counts the
requests issued so far, `done` lists completed ids). -/
def Loader.wfFrom (issued : Nat) (done : List Nat) : List LoaderEvent → Bool
  | [] => true
  | .issue _ :: rest => Loader.wfFrom (issued + 1) done rest
  | .complete i :: rest =>
      decide (i < issued) && !(done.contains i) && Loader.wfFrom issued (i :: done) rest

/-- A well-formed event sequence, starting from the initial state. -/
def Loader.wf (events : List LoaderEvent) : Bool :=
  Loader.wfFrom 0 [] events

/-- Number of worker completions in an event sequence. -/
def Loader.countCompletes (events : List LoaderEvent) : Nat :=
  (events.filter (fun e => match e with | .complete _ => true | _ => false)).length

/-- The supersession discipline the specification demands of the loader:
every result applied to the display belongs to the most recently issued
request at the moment of application. -/
def Loader.onlyLatestApplied (events : List LoaderEvent) : Prop :=
  ∀ p ∈ (Loader.run events).appliedLog, p.reqId + 1 = p.issuedCount

/-- The payload of the most recent display update in a log, `none` when no
update has been applied yet. -/
def lastPayload (log : List AppliedEntry) : Option String :=
  match log.getLast? with
  | none => none
  | some en => en.payload

/-- The trace in which a request for table X is superseded by a request for
table Y before completion, Y's worker finishes first, and X's worker
finishes last. -/
def staleTrace : List LoaderEvent :=
  [.issue "X", .issue "Y", .complete 1, .complete 0]

/-- The three-row example table of the specification's test scenarios
(rows `[["a",1],["b",2],["c",3]]`). -/
def exampleDf : DataFrame :=
  ⟨["name", "num"],
    [[Value.vStr "a", Value.vInt 1], [Value.vStr "b", Value.vInt 2],
     [Value.vStr "c", Value.vInt 3]]⟩

/-! ### Helper lemmas about the view pipeline -/

theorem columns_filterStep (df : DataFrame) (sq : Option String) :
    (filterStep df sq).columns = df.columns := by
  cases sq with
  | none => rfl
  | some q =>
      by_cases hq : q = "" <;> simp [filterStep, hq]

theorem columns_sortStep (df : DataFrame) (sc : Option String) (so : Bool) :
    (sortStep df sc so).columns = df.columns := by
  cases sc with
  | none => rfl
  | some c =>
      by_cases hc : c = "" <;> simp [sortStep, hc]

theorem columns_getFilteredSortedDf (df : DataFrame) (sc : Option String)
    (so : Bool) (sq : Option String) :
    (getFilteredSortedDf df sc so sq).columns = df.columns := by
  rw [getFilteredSortedDf, columns_sortStep, columns_filterStep]

theorem mem_rows_sortStep (df : DataFrame) (sc : Option String) (so : Bool)
    (r : List Value) : r ∈ (sortStep df sc so).rows ↔ r ∈ df.rows := by
  cases sc with
  | none => rfl
  | some c =>
      by_cases hc : c = "" <;> simp [sortStep, hc, sortRows]

theorem mem_rows_filterStep (df : DataFrame) (q : String) (hq : q ≠ "")
    (r : List Value) :
    r ∈ (filterStep df (some q)).rows ↔ r ∈ df.rows ∧ rowMatches q r = true := by
  simp [filterStep, hq, List.mem_filter]

theorem filterStep_none_eq (df : DataFrame) :
    filterStep df none = df ∧ filterStep df (some "") = df := by
  constructor <;> rfl

/-! ### Claims C3 and C4: state transitions of the GUI layer -/

/-- C3: from any state in which column `c` is not the current sort column,
one click on `c` sorts ascending by `c`, a second click sorts descending,
and a third click clears the sort (returns to the unsorted state) instead
of cycling back to ascending. -/
theorem columnClick_cycles (s : SortState) (c : String)
    (h : s.sortColumn ≠ some c) :
    onColumnClick s c = ⟨some c, true⟩
    ∧ onColumnClick (onColumnClick s c) c = ⟨some c, false⟩
    ∧ onColumnClick (onColumnClick (onColumnClick s c) c) c = ⟨none, false⟩ := by
  simp [onColumnClick, h]

/-- Witness for `columnClick_cycles` at the initial view state and column
"num". -/
theorem columnClick_cycles_witness :
    (SortState.mk none false).sortColumn ≠ some "num"
    ∧ (onColumnClick ⟨none, false⟩ "num" = ⟨some "num", true⟩
       ∧ onColumnClick (onColumnClick ⟨none, false⟩ "num") "num" = ⟨some "num", false⟩
       ∧ onColumnClick (onColumnClick (onColumnClick ⟨none, false⟩ "num") "num") "num"
          = ⟨none, false⟩) :=
  ⟨by decide, columnClick_cycles ⟨none, false⟩ "num" (by decide)⟩

/-- C4: with more than one page and the current page in range, "next" from
the last page wraps to page 1, "previous" from page 1 wraps to the last
page, and either request leaves the current page inside
`[1, max(total_pages, 1)]`. -/
theorem pageChange_wraps (cp tp : Int) (h1 : 1 < tp) (h2 : 1 ≤ cp)
    (h3 : cp ≤ tp) :
    onPageChange tp tp false = 1
    ∧ onPageChange 1 tp true = tp
    ∧ (1 ≤ onPageChange cp tp false ∧ onPageChange cp tp false ≤ max tp 1)
    ∧ (1 ≤ onPageChange cp tp true ∧ onPageChange cp tp true ≤ max tp 1) := by
  have htp : (0 : Int) < tp := by omega
  have hne : tp ≠ 0 := by omega
  have hbound : ∀ a : Int, 1 ≤ a % tp + 1 ∧ a % tp + 1 ≤ max tp 1 := by
    intro a
    have hnn := Int.emod_nonneg a hne
    have hlt := Int.emod_lt_of_pos a htp
    constructor
    · omega
    · have : max tp 1 = tp := by omega
      omega
  refine ⟨?_, ?_, hbound cp, hbound (cp - 2)⟩
  · simp [onPageChange, Int.emod_self]
  · have hm : (-1 + tp * 1) % tp = (-1 : Int) % tp :=
      Int.add_mul_emod_self_left (-1) tp 1
    have h4 : (-1 + tp * 1 : Int) = tp - 1 := by ring
    rw [h4, Int.emod_eq_of_lt (by omega) (by omega)] at hm
    simp only [onPageChange, if_true]
    have h5 : (1 - 2 : Int) = -1 := by ring
    rw [h5, ← hm]
    omega

/-- Witness for `pageChange_wraps` with 3 total pages, current page 2. -/
theorem pageChange_wraps_witness :
    ((1 : Int) < 3 ∧ (1 : Int) ≤ 2 ∧ (2 : Int) ≤ 3)
    ∧ (onPageChange 3 3 false = 1
       ∧ onPageChange 1 3 true = 3
       ∧ (1 ≤ onPageChange 2 3 false ∧ onPageChange 2 3 false ≤ max 3 1)
       ∧ (1 ≤ onPageChange 2 3 true ∧ onPageChange 2 3 true ≤ max 3 1)) :=
  ⟨⟨by decide, by decide, by decide⟩,
    pageChange_wraps 2 3 (by decide) (by decide) (by decide)⟩

/-! ### Claims C9 and C8: worker reporting and CSV fallback -/

/-- C9: a valid load whose requested page has zero rows yields the
informational "No data found" report, a valid load with rows yields the
display outcome, and a load error yields the "Error opening table" report;
the no-data and display outcomes are never equal to the error outcome. -/
theorem emptyResult_distinct_from_error (t : String) (p s : Nat)
    (df dfn : DataFrame) (e : String)
    (hempty : pageRows df.rows p s = [])
    (hnonempty : pageRows dfn.rows p s ≠ []) :
    workerOutcome (.ok df) t p s
      = .noData ("No data found in table \"" ++ t ++ "\"") "No data found in table"
    ∧ workerOutcome (.ok dfn) t p s
      = .display (pageRows dfn.rows p s) dfn.columns (totalPagesOf dfn.rows.length s)
    ∧ workerOutcome (.error e) t p s
      = .dbError ("Error opening table \"" ++ t ++ "\" due to \n" ++ e)
          "Error opening table"
    ∧ workerOutcome (.ok df) t p s ≠ workerOutcome (.error e) t p s
    ∧ workerOutcome (.ok dfn) t p s ≠ workerOutcome (.error e) t p s := by
  refine ⟨?_, ?_, rfl, ?_, ?_⟩
  · simp [workerOutcome, hempty]
  · simp [workerOutcome, hnonempty]
  · simp [workerOutcome, hempty]
  · simp [workerOutcome, hnonempty]

/-- Witness for `emptyResult_distinct_from_error`: a zero-row table versus
a one-row table on page 1 of size 1, against a failing load. -/
theorem emptyResult_distinct_from_error_witness :
    pageRows (DataFrame.mk ["a"] []).rows 1 1 = []
    ∧ pageRows (DataFrame.mk ["a"] [[Value.vInt 7]]).rows 1 1 ≠ []
    ∧ (workerOutcome (.ok ⟨["a"], []⟩) "t" 1 1
        = .noData ("No data found in table \"" ++ "t" ++ "\"")
            "No data found in table"
       ∧ workerOutcome (.ok ⟨["a"], []⟩) "t" 1 1
          ≠ workerOutcome (.error "boom") "t" 1 1
       ∧ workerOutcome (.ok ⟨["a"], [[Value.vInt 7]]⟩) "t" 1 1
          ≠ workerOutcome (.error "boom") "t" 1 1) := by
  refine ⟨by decide, by decide, ?_⟩
  have h := emptyResult_distinct_from_error "t" 1 1 ⟨["a"], []⟩
    ⟨["a"], [[Value.vInt 7]]⟩ "boom" (by decide) (by decide)
  exact ⟨h.1, h.2.2.2.1, h.2.2.2.2⟩

/-- C8: `_get_csv_dataframe` first attempts the strict comma-delimited
read and returns its dataframe when it succeeds; when that read raises a
`ValueError` (pandas `ParserError` on malformed field counts or a wrong
delimiter subclasses it), the function returns the result of the lenient
semicolon-delimited read instead of failing the load. -/
theorem csv_semicolon_fallback (f g : CsvFile) (df : DataFrame) (m : String)
    (hok : f.commaStrict = .ok df)
    (herr : g.commaStrict = .valueError m) :
    getCsvDataframe f = .ok df
    ∧ getCsvDataframe g = g.semicolonLenient := by
  constructor
  · rw [getCsvDataframe, hok]
  · rw [getCsvDataframe, herr]

/-- Witness for `csv_semicolon_fallback` with a one-cell dataframe and a
concrete parse error. -/
theorem csv_semicolon_fallback_witness :
    ((CsvFile.mk (.ok ⟨["a"], [[Value.vInt 1]]⟩) (.ok ⟨[], []⟩)).commaStrict
        = .ok ⟨["a"], [[Value.vInt 1]]⟩
     ∧ (CsvFile.mk (.valueError "bad line") (.ok ⟨["b"], []⟩)).commaStrict
        = .valueError "bad line")
    ∧ (getCsvDataframe ⟨.ok ⟨["a"], [[Value.vInt 1]]⟩, .ok ⟨[], []⟩⟩
        = .ok ⟨["a"], [[Value.vInt 1]]⟩
       ∧ getCsvDataframe ⟨.valueError "bad line", .ok ⟨["b"], []⟩⟩
          = (CsvFile.mk (.valueError "bad line") (.ok ⟨["b"], []⟩)).semicolonLenient) :=
  ⟨⟨rfl, rfl⟩,
    csv_semicolon_fallback ⟨.ok ⟨["a"], [[Value.vInt 1]]⟩, .ok ⟨[], []⟩⟩
      ⟨.valueError "bad line", .ok ⟨["b"], []⟩⟩ ⟨["a"], [[Value.vInt 1]]⟩
      "bad line" rfl rfl⟩

/-! ### Claim C1: the loader has no supersession -/

/-- C1 counterexample: on the well-formed trace where the request for table
X is superseded by a request for table Y and X's worker completes last, the
superseded X result is still applied to the display — the display ends up
showing X after Y was requested, falsifying the claim that only the most
recently requested load's result reaches the display layer. -/
theorem staleResult_reaches_display :
    Loader.wf staleTrace = true
    ∧ ¬ Loader.onlyLatestApplied staleTrace
    ∧ (Loader.run staleTrace).display = some "X" := by
  refine ⟨by decide, ?_, by decide⟩
  intro h
  have := h ⟨0, 2, some "X"⟩ (by decide)
  simp at this

/-- C1 amended: the loader in `load_table_data` performs no supersession at
all — every worker completion applies its result to the display (the
applied-update log has exactly one entry per completion event), and the
display always shows the payload of the most recent completion, so the
display follows completion order, not request order. -/
theorem every_completion_applied (events : List LoaderEvent) :
    (Loader.run events).appliedLog.length = Loader.countCompletes events
    ∧ (Loader.run events).display = lastPayload (Loader.run events).appliedLog := by
  suffices h : ∀ s : LoaderState, s.display = lastPayload s.appliedLog →
      (events.foldl LoaderState.step s).appliedLog.length
        = s.appliedLog.length + Loader.countCompletes events
      ∧ (events.foldl LoaderState.step s).display
          = lastPayload (events.foldl LoaderState.step s).appliedLog by
    have h0 := h LoaderState.init rfl
    exact ⟨by simpa [Loader.run, LoaderState.init] using h0.1,
      by simpa [Loader.run] using h0.2⟩
  induction events with
  | nil =>
      intro s hs
      exact ⟨by simp [Loader.countCompletes], hs⟩
  | cons e rest ih =>
      intro s hs
      cases e with
      | issue t =>
          have h1 := ih { s with issued := s.issued ++ [t] } hs
          refine ⟨?_, h1.2⟩
          rw [List.foldl_cons]
          simpa [LoaderState.step, Loader.countCompletes] using h1.1
      | complete i =>
          have hstep : lastPayload (s.appliedLog ++ [⟨i, s.issued.length, s.issued.get? i⟩])
              = s.issued.get? i := by
            simp [lastPayload, List.getLast?_concat]
          have h1 := ih (LoaderState.step s (.complete i)) (by
            simp only [LoaderState.step]
            exact hstep.symm)
          refine ⟨?_, h1.2⟩
          rw [List.foldl_cons]
          have h2 := h1.1
          simp only [LoaderState.step, List.length_append] at h2
          simp only [LoaderState.step]
          rw [h2]
          simp [Loader.countCompletes]
          omega

/-! ### Claims C5, C6, C7 and C10: the view pipeline -/

/-- C5: with a non-empty query, a row is in the result of
`get_filtered_sorted_df` exactly when it is a row of the table and some
cell's text representation contains the query case-insensitively; with a
`None` or empty query the result is the unfiltered table (identical output
for `None` and `""`, and equal to the table itself when no sort column is
set). -/
theorem search_filter_semantics (df : DataFrame) (sc : Option String)
    (so : Bool) (q : String) (r : List Value) (hq : q ≠ "") :
    (r ∈ (getFilteredSortedDf df sc so (some q)).rows
      ↔ r ∈ df.rows ∧ rowMatches q r = true)
    ∧ getFilteredSortedDf df sc so none = getFilteredSortedDf df sc so (some "")
    ∧ getFilteredSortedDf df none so none = df
    ∧ getFilteredSortedDf df none so (some "") = df := by
  refine ⟨?_, ?_, rfl, ?_⟩
  · rw [getFilteredSortedDf, mem_rows_sortStep, mem_rows_filterStep df q hq]
  · rw [getFilteredSortedDf, getFilteredSortedDf, (filterStep_none_eq df).1,
      (filterStep_none_eq df).2]
  · show sortStep (filterStep df (some "")) none so = df
    rw [(filterStep_none_eq df).2]
    rfl

/-- Witness for `search_filter_semantics` on the specification's example
table with query "b". -/
theorem search_filter_semantics_witness :
    ("b" : String) ≠ ""
    ∧ (([Value.vStr "b", Value.vInt 2]
          ∈ (getFilteredSortedDf exampleDf none false (some "b")).rows
        ↔ [Value.vStr "b", Value.vInt 2] ∈ exampleDf.rows
          ∧ rowMatches "b" [Value.vStr "b", Value.vInt 2] = true)
       ∧ getFilteredSortedDf exampleDf none false none
          = getFilteredSortedDf exampleDf none false (some "")
       ∧ getFilteredSortedDf exampleDf none false none = exampleDf
       ∧ getFilteredSortedDf exampleDf none false (some "") = exampleDf) :=
  ⟨by decide,
    search_filter_semantics exampleDf none false "b"
      [Value.vStr "b", Value.vInt 2] (by decide)⟩

/-- Arithmetic of ceiling division by a positive page size: the page count
`(n + s - 1) / s` covers all `n` rows and exceeds them by less than one
page. -/
theorem ceilDiv_bounds (n s : Nat) (hs : 0 < s) :
    n ≤ s * ((n + s - 1) / s) ∧ s * ((n + s - 1) / s) < n + s := by
  have h1 := Nat.div_add_mod (n + s - 1) s
  have h2 : (n + s - 1) % s < s := Nat.mod_lt _ hs
  generalize hP : s * ((n + s - 1) / s) = P at *
  omega

/-- C6: the page assembled by `_worker` is exactly the slice of the
filtered/sorted rows at positions `[(p-1)*s, p*s)`, clipped to the
available rows; an out-of-range page number yields the empty page and the
informational no-data outcome rather than the error outcome; and the page
count reported with a successful page is the ceiling of
`total_rows / page_size`. -/
theorem page_slice_semantics (df : DataFrame) (t : String) (p s i : Nat)
    (hp : 1 ≤ p) (hs : 1 ≤ s) :
    ((pageRows df.rows p s)[i]?
        = if i < s then df.rows[(p - 1) * s + i]? else none)
    ∧ (df.rows.length ≤ (p - 1) * s →
        pageRows df.rows p s = []
        ∧ workerOutcome (.ok df) t p s
            = .noData ("No data found in table \"" ++ t ++ "\"")
                "No data found in table")
    ∧ (pageRows df.rows p s ≠ [] →
        workerOutcome (.ok df) t p s
          = .display (pageRows df.rows p s) df.columns
              (totalPagesOf df.rows.length s))
    ∧ df.rows.length ≤ s * totalPagesOf df.rows.length s
    ∧ s * totalPagesOf df.rows.length s < df.rows.length + s := by
  have hceil := ceilDiv_bounds df.rows.length s (by omega)
  refine ⟨?_, ?_, ?_, hceil.1, hceil.2⟩
  · rw [pageRows, List.getElem?_take, List.getElem?_drop]
  · intro hle
    have hnil : pageRows df.rows p s = [] := by
      rw [pageRows, List.drop_eq_nil_of_le hle, List.take_nil]
    exact ⟨hnil, by simp [workerOutcome, hnil]⟩
  · intro hne
    simp [workerOutcome, hne]

/-- Witness for `page_slice_semantics` on the specification's example
table with page 2 of size 2. -/
theorem page_slice_semantics_witness :
    ((1 : Nat) ≤ 2 ∧ (1 : Nat) ≤ 2)
    ∧ (((pageRows exampleDf.rows 2 2)[0]?
          = if (0 : Nat) < 2 then exampleDf.rows[(2 - 1) * 2 + 0]? else none)
       ∧ (exampleDf.rows.length ≤ (2 - 1) * 2 →
            pageRows exampleDf.rows 2 2 = []
            ∧ workerOutcome (.ok exampleDf) "t" 2 2
                = .noData ("No data found in table \"" ++ "t" ++ "\"")
                    "No data found in table")
       ∧ (pageRows exampleDf.rows 2 2 ≠ [] →
            workerOutcome (.ok exampleDf) "t" 2 2
              = .display (pageRows exampleDf.rows 2 2) exampleDf.columns
                  (totalPagesOf exampleDf.rows.length 2))
       ∧ exampleDf.rows.length ≤ 2 * totalPagesOf exampleDf.rows.length 2
       ∧ 2 * totalPagesOf exampleDf.rows.length 2 < exampleDf.rows.length + 2) :=
  ⟨⟨by decide, by decide⟩,
    page_slice_semantics exampleDf "t" 2 2 0 (by decide) (by decide)⟩

/-- Concatenating the first `m` chunks of size `s` of a list reproduces its
first `m * s` elements. -/
theorem chunks_flatten_take {α : Type} (s : Nat) (l : List α) (m : Nat) :
    ((List.range m).map (fun k => (l.drop (k * s)).take s)).flatten
      = l.take (m * s) := by
  induction m with
  | zero => simp
  | succ m ih =>
      rw [List.range_succ, List.map_append, List.flatten_append, ih]
      have : (m + 1) * s = m * s + s := by ring
      rw [this, List.take_add]
      simp

/-- C7: concatenating pages `1 .. ceil(n / s)` of the filtered/sorted row
sequence, in order, reconstructs the whole sequence — every row appears
exactly once, with no gaps and no duplicates. -/
theorem pages_reconstruct (df : DataFrame) (sc : Option String) (so : Bool)
    (sq : Option String) (s : Nat) (hs : 1 ≤ s) :
    ((List.range (totalPagesOf (getFilteredSortedDf df sc so sq).rows.length s)).map
        (fun k => pageRows (getFilteredSortedDf df sc so sq).rows (k + 1) s)).flatten
      = (getFilteredSortedDf df sc so sq).rows := by
  have hcover :=
    (ceilDiv_bounds (getFilteredSortedDf df sc so sq).rows.length s (by omega)).1
  calc ((List.range (totalPagesOf (getFilteredSortedDf df sc so sq).rows.length s)).map
        (fun k => pageRows (getFilteredSortedDf df sc so sq).rows (k + 1) s)).flatten
      = ((List.range (totalPagesOf (getFilteredSortedDf df sc so sq).rows.length s)).map
          (fun k => ((getFilteredSortedDf df sc so sq).rows.drop (k * s)).take s)).flatten := by
        simp [pageRows]
    _ = (getFilteredSortedDf df sc so sq).rows.take
          (totalPagesOf (getFilteredSortedDf df sc so sq).rows.length s * s) :=
        chunks_flatten_take s _ _
    _ = (getFilteredSortedDf df sc so sq).rows := by
        refine List.take_of_length_le ?_
        rw [Nat.mul_comm]
        exact hcover

/-- Witness for `pages_reconstruct` on the specification's example table
with page size 2. -/
theorem pages_reconstruct_witness :
    (1 : Nat) ≤ 2
    ∧ ((List.range (totalPagesOf
          (getFilteredSortedDf exampleDf none false none).rows.length 2)).map
        (fun k => pageRows
          (getFilteredSortedDf exampleDf none false none).rows (k + 1) 2)).flatten
      = (getFilteredSortedDf exampleDf none false none).rows :=
  ⟨by decide, pages_reconstruct exampleDf none false none 2 (by decide)⟩

/-- C10: `get_filtered_sorted_df` returns a dataframe with exactly the
table's ordered column list, and every row of the result is a row of the
table, cells unchanged — the pipeline only selects and reorders rows. -/
theorem filter_sort_frame (df : DataFrame) (sc : Option String) (so : Bool)
    (sq : Option String) (r : List Value)
    (hr : r ∈ (getFilteredSortedDf df sc so sq).rows) :
    (getFilteredSortedDf df sc so sq).columns = df.columns ∧ r ∈ df.rows := by
  refine ⟨columns_getFilteredSortedDf df sc so sq, ?_⟩
  rw [getFilteredSortedDf, mem_rows_sortStep] at hr
  cases sq with
  | none => exact hr
  | some q =>
      by_cases hq : q = ""
      · subst hq
        rw [(filterStep_none_eq df).2] at hr
        exact hr
      · exact ((mem_rows_filterStep df q hq r).mp hr).1

/-- Witness for `filter_sort_frame`: a sorted, filtered lookup on the
specification's example table. -/
theorem filter_sort_frame_witness :
    [Value.vStr "b", Value.vInt 2]
      ∈ (getFilteredSortedDf exampleDf (some "num") false (some "b")).rows
    ∧ ((getFilteredSortedDf exampleDf (some "num") false (some "b")).columns
          = exampleDf.columns
       ∧ [Value.vStr "b", Value.vInt 2] ∈ exampleDf.rows) :=
  have hr : [Value.vStr "b", Value.vInt 2]
      ∈ (getFilteredSortedDf exampleDf (some "num") false (some "b")).rows :=
    (mem_rows_sortStep (filterStep exampleDf (some "b")) (some "num") false
      [Value.vStr "b", Value.vInt 2]).mpr (by decide)
  ⟨hr,
    filter_sort_frame exampleDf (some "num") false (some "b")
      [Value.vStr "b", Value.vInt 2] hr⟩

end SQLiteViewer
